import Mathlib

/-!
Shallow embedding of the enrichment pipeline of
`src/MusicPlayer/context/AudioProvider.tsx` (Undefined223/Music-Player).

The provider scans the device media library, enriches each track with
metadata from the Spotify catalog, caches the enriched list in local
storage, and serves the cache when offline.  Asynchronous effects
(network requests, permission prompts, storage access) are modelled by
an `Env` record of outcomes sampled by the single initialization task,
and the observable actions (network requests, console messages) are
collected in an event trace.  JavaScript exceptions are modelled with
`Except`; each `try/catch` of the source is translated explicitly, so a
total Lean function corresponds to a TS function that never throws to
its caller.
-/

namespace MusicPlayer

/-- The `AudioFile` interface of the source: identifier, filename and URI
from the device scan, plus the three optional metadata fields filled by
the Spotify merge (`undefined` in TS is `none` here). -/
structure AudioFile where
  id : String
  filename : String
  uri : String
  albumCover : Option String := none
  artist : Option String := none
  album : Option String := none
  deriving Repr, DecidableEq

/-- The `AudioContextType` interface: what the provider exposes to
consumers. -/
structure AudioContextType where
  audioFiles : List AudioFile
  loading : Bool
  deriving Repr, DecidableEq

/-- The `useAudio` hook.  The React context holds either `undefined` (no
provider above the caller) or the provider value, which is always a
truthy object; `if (!context) throw new Error(...)` is the `none`
branch. -/
def useAudio (ctx : Option AudioContextType) : Except String AudioContextType :=
  match ctx with
  | none => .error "useAudio must be used within an AudioProvider"
  | some c => .ok c

/-- One entry of `assets.assets` as returned by
`MediaLibrary.getAssetsAsync`: the three fields the source reads. -/
structure Asset where
  id : String
  filename : String
  uri : String
  deriving Repr, DecidableEq

/-- `assets.assets.map(asset => ({id, filename, uri}))`: a freshly
scanned, unenriched track. -/
def assetToFile (a : Asset) : AudioFile :=
  { id := a.id, filename := a.filename, uri := a.uri }

/-! ### Spotify search response

The source reads `response.data.tracks.items[0]`, then
`track.album.images[0]?.url`, `track.artists[0]?.name` and
`track.album.name`.  Fields whose absence makes the next property access
throw a `TypeError` in JS are modelled as `Option`; array indexing with
`[0]` is `List.head?` (JS indexing past the end yields `undefined`, it
does not throw). -/

/-- One element of `album.images`. -/
structure ImageObj where
  url : String
  deriving Repr, DecidableEq

/-- One element of `track.artists`. -/
structure ArtistObj where
  name : String
  deriving Repr, DecidableEq

/-- The `album` object of a matched track; `images` is `none` when the
field is absent (so that `images[0]` would throw). -/
structure AlbumObj where
  images : Option (List ImageObj)
  name : String
  deriving Repr, DecidableEq

/-- A matched track object of `tracks.items`. -/
structure TrackObj where
  album : Option AlbumObj
  artists : Option (List ArtistObj)
  deriving Repr, DecidableEq

/-- The `tracks` object of the search response; `items` is `none` when
the field is absent. -/
structure TracksObj where
  items : Option (List TrackObj)
  deriving Repr, DecidableEq

/-- `response.data` of the catalog search. -/
structure SearchResponse where
  tracks : Option TracksObj
  deriving Repr, DecidableEq

/-- Outcome of one per-track catalog lookup: the axios call either
throws (network error, non-2xx) or resolves with a response body. -/
inductive LookupOutcome where
  | failure
  | response (data : SearchResponse)

/-- Body of the per-file `try` block after the response arrived:
`const track = response.data.tracks.items[0]; if (track) {...} return file`.
A thrown `TypeError` is `Except.error ()`. -/
def tryEnhance (file : AudioFile) (data : SearchResponse) : Except Unit AudioFile := do
  let some tracks := data.tracks | throw ()
  let some items := tracks.items | throw ()
  match items.head? with
  | none => pure file
  | some track =>
    let some album := track.album | throw ()
    let some images := album.images | throw ()
    let some artists := track.artists | throw ()
    pure { file with
      albumCover := images.head?.map ImageObj.url
      artist := artists.head?.map ArtistObj.name
      album := some album.name }

/-- One mapped element of `enhanceAudioWithSpotifyData`: the per-file
`try/catch` — a lookup failure or a `TypeError` while reading the
response is caught and the original `file` returned. -/
def enhanceOne (file : AudioFile) (o : LookupOutcome) : AudioFile :=
  match o with
  | .failure => file
  | .response d =>
    match tryEnhance file d with
    | .ok f => f
    | .error _ => file

/-! ### The search URL

`encodeURIComponent(file.filename.split('.')[0])` and the literal URL
around it. -/

/-- JavaScript `String.prototype.split` with a one-character separator,
at the character-list level: `"a..b".split('.') = ["a","","b"]`,
`"".split('.') = [""]`. -/
def jsSplit (sep : Char) : List Char → List (List Char)
  | [] => [[]]
  | c :: cs =>
    let rest := jsSplit sep cs
    if c == sep then [] :: rest
    else (c :: rest.headD []) :: rest.tail

/-- An ASCII character `encodeURIComponent` leaves unescaped:
`A–Z a–z 0–9 - _ . ! ~ * ( )` and the apostrophe (code 39). -/
def isUriUnreserved (c : Char) : Bool :=
  c.isAlphanum || c == '-' || c == '_' || c == '.' || c == '!' ||
    c == '~' || c == '*' || c.toNat == 39 || c == '(' || c == ')'

/-- The UTF-8 bytes of a character (as `Nat`s below 256). -/
def charUtf8 (c : Char) : List Nat :=
  let n := c.toNat
  if n < 0x80 then [n]
  else if n < 0x800 then [0xC0 + n / 64, 0x80 + n % 64]
  else if n < 0x10000 then
    [0xE0 + n / 4096, 0x80 + n / 64 % 64, 0x80 + n % 64]
  else
    [0xF0 + n / 262144, 0x80 + n / 4096 % 64, 0x80 + n / 64 % 64, 0x80 + n % 64]

/-- Uppercase hexadecimal digit for `n < 16`. -/
def hexDigit (n : Nat) : Char :=
  if n < 10 then Char.ofNat (48 + n) else Char.ofNat (55 + n)

/-- `%XY` escape of one byte. -/
def percentEncodeByte (b : Nat) : String :=
  String.mk ['%', hexDigit (b / 16), hexDigit (b % 16)]

/-- JavaScript `encodeURIComponent`: unreserved characters pass through,
every other character is replaced by the `%XY` escapes of its UTF-8
bytes. -/
def encodeURIComponent (s : String) : String :=
  String.join (s.toList.map fun c =>
    if isUriUnreserved c then String.mk [c]
    else String.join ((charUtf8 c).map percentEncodeByte))

/-- `const searchQuery = encodeURIComponent(file.filename.split('.')[0])`. -/
def searchQuery (filename : String) : String :=
  encodeURIComponent (String.mk ((jsSplit '.' filename.toList).headD []))

/-- The catalog search URL of the axios GET (template literal of line
66): base endpoint, the query, and the fixed `type=track&limit=1`
parameters. -/
def requestUrl (file : AudioFile) : String :=
  "https://api.spotify.com/v1/search?q=" ++ searchQuery file.filename ++
    "&type=track&limit=1"

/-- What the spec's words "the filename with its extension stripped"
describe: drop the part from the LAST dot on (a trailing extension);
a name with no dot is kept whole.  Used only to compare the spec's
wording against `searchQuery`. -/
def stripExtension (s : String) : String :=
  match (jsSplit '.' s.toList).reverse with
  | [] => s
  | [_] => s
  | _ :: restRev =>
    String.intercalate "." (restRev.reverse.map String.mk)

/-- The longest dot-free leading segment of a string — what
`split('.')[0]` actually selects. -/
def beforeFirstDot (s : String) : String :=
  String.mk (s.toList.takeWhile fun c => c != '.')

/-! ### Observable events and the batch enhancement -/

/-- Observable actions of one initialization run: the token POST, a
catalog search GET, or a console message. -/
inductive Event where
  | netTokenRequest
  | netSearch (url : String)
  | logMsg (msg : String)
  deriving Repr, DecidableEq

/-- Network requests, as opposed to console output. -/
def isNetworkEvent : Event → Bool
  | .netTokenRequest => true
  | .netSearch _ => true
  | .logMsg _ => false

/-- Per-track lookup outcomes for a whole batch, indexed by the track's
position in scan order (`Promise.all` settles them independently). -/
def LookupOracle : Type := Nat → LookupOutcome

/-- `Promise.all(audioFiles.map(...))` with the events it emits: one
search GET per file in scan order, and an error log for a caught
per-file exception.  `i` is the scan position of the list head. -/
def enhanceRun (lookups : LookupOracle) : Nat → List AudioFile → List AudioFile × List Event
  | _, [] => ([], [])
  | i, f :: fs =>
    let here : List Event :=
      Event.netSearch (requestUrl f) ::
        (match lookups i with
          | .failure => [Event.logMsg "Error fetching data from Spotify:"]
          | .response d =>
            match tryEnhance f d with
            | .ok _ => []
            | .error _ => [Event.logMsg "Error fetching data from Spotify:"])
    let rest := enhanceRun lookups (i + 1) fs
    (enhanceOne f (lookups i) :: rest.1, here ++ rest.2)

/-- `enhanceAudioWithSpotifyData(audioFiles, token)`: the resolved value
of the `Promise.all`.  The bearer token only influences the lookup
outcomes, which the oracle already fixes. -/
def enhanceAudioWithSpotifyData (files : List AudioFile) (lookups : LookupOracle) :
    List AudioFile :=
  (enhanceRun lookups 0 files).1

/-! ### Local persistence

`AsyncStorage` holds, under the single key `"audioFiles"`, the string
`JSON.stringify(enhancedFiles)`.  The stored string is modelled by its
JSON parse tree (`JSON.parse ∘ JSON.stringify` is the identity on these
trees), so the store is an `Option Json`.  Only the JSON constructors
this data can produce are needed. -/

/-- JSON parse trees of the values this pipeline serializes. -/
inductive Json where
  | str (s : String)
  | arr (xs : List Json)
  | obj (fields : List (String × Json))

/-- `JSON.stringify` of one `AudioFile` object: `undefined` optional
fields are omitted from the serialized object, present ones appear as
strings. -/
def encodeTrack (t : AudioFile) : Json :=
  .obj ([("id", Json.str t.id), ("filename", Json.str t.filename),
         ("uri", Json.str t.uri)] ++
    (match t.albumCover with
      | some s => [("albumCover", Json.str s)]
      | none => []) ++
    (match t.artist with
      | some s => [("artist", Json.str s)]
      | none => []) ++
    (match t.album with
      | some s => [("album", Json.str s)]
      | none => []))

/-- `JSON.stringify` of the enhanced list: a JSON array in order. -/
def encodeLibrary (files : List AudioFile) : Json :=
  .arr (files.map encodeTrack)

/-- Property access on a parsed JSON object: the first binding of the
key, or `undefined` (`none`). -/
def jsonField (fields : List (String × Json)) (k : String) : Option Json :=
  (fields.find? fun p => p.1 == k).map Prod.snd

/-- A JSON value read back as a string field (`undefined` otherwise). -/
def asString : Json → Option String
  | .str s => some s
  | _ => none

/-- Reading one parsed object back as an `AudioFile`: the three scan
fields must be present strings (they always are for values this
pipeline stored); absent optional fields read back as `undefined`. -/
def decodeTrack : Json → Option AudioFile
  | .obj fs =>
    match (jsonField fs "id").bind asString,
        (jsonField fs "filename").bind asString,
        (jsonField fs "uri").bind asString with
    | some i, some fn, some u =>
      some { id := i, filename := fn, uri := u,
             albumCover := (jsonField fs "albumCover").bind asString,
             artist := (jsonField fs "artist").bind asString,
             album := (jsonField fs "album").bind asString }
    | _, _, _ => none
  | _ => none

/-- Reading every element of a parsed array back as an `AudioFile`. -/
def decodeTracks : List Json → Option (List AudioFile)
  | [] => some []
  | j :: js =>
    match decodeTrack j, decodeTracks js with
    | some t, some ts => some (t :: ts)
    | _, _ => none

/-- `JSON.parse` of a stored snapshot, read back as a track list. -/
def decodeLibrary : Json → Option (List AudioFile)
  | .arr xs => decodeTracks xs
  | _ => none

/-! ### Provider state and environment -/

/-- The provider's mutable state: the two React state cells the
consumers see, plus the device-local `AsyncStorage` entry under the key
`"audioFiles"`.  Initial values: `[]`, `true`, and whatever snapshot a
previous session persisted. -/
structure ProviderState where
  audioFiles : List AudioFile
  loading : Bool
  store : Option Json

/-- Provider state at mount: `useState([])`, `useState(true)`, and the
persisted snapshot (if any) from an earlier session. -/
def initialState (store : Option Json) : ProviderState :=
  { audioFiles := [], loading := true, store := store }

/-- Outcomes of the effects one initialization run can perform.
`tokenResult` is what `fetchSpotifyToken` returns: `none` when the POST
threw (caught, logged) or the body had no `access_token`; `online` is
`navigator.onLine`; `permissionStatus` is the string status of
`MediaLibrary.requestPermissionsAsync`; `getAssetsFail` makes
`getAssetsAsync` throw; `storeOk` / `loadOk` are the `AsyncStorage`
`setItem` / `getItem` outcomes. -/
structure Env where
  tokenResult : Option String
  online : Bool
  permissionStatus : String
  getAssetsFail : Bool
  assets : List Asset
  lookups : LookupOracle
  storeOk : Bool
  loadOk : Bool

/-- `storeAudioData(enhancedFiles)`: `JSON.stringify` then `setItem`,
with its `try/catch` — a storage failure is logged and swallowed. -/
def storeAudioData (storeOk : Bool) (files : List AudioFile) (s : ProviderState) :
    ProviderState × List Event :=
  if storeOk then ({ s with store := some (encodeLibrary files) }, [])
  else (s, [Event.logMsg "Error saving audio data:"])

/-- `loadAudioDataFromStorage()`: `getItem` then `JSON.parse`, with its
`try/catch` — on a storage error the function logs and returns
`undefined`; with no entry it returns `null`; both are `none`. -/
def loadAudioDataFromStorage (loadOk : Bool) (store : Option Json) :
    Option (List AudioFile) × List Event :=
  if loadOk then
    match store with
    | some j => (decodeLibrary j, [])
    | none => (none, [])
  else (none, [Event.logMsg "Error loading audio data from storage:"])

/-- The `try` block of `fetchAudioFiles`: permission request, asset
scan, enhancement, state update, persistence.  `Except.error ()` is an
exception reaching the enclosing `catch` (here only `getAssetsAsync`
can throw; the inner calls catch their own). -/
def fetchAudioFilesBody (env : Env) (s : ProviderState) :
    Except Unit (ProviderState × List Event) :=
  if env.permissionStatus == "granted" then
    if env.getAssetsFail then .error ()
    else
      let files := env.assets.map assetToFile
      let res := enhanceRun env.lookups 0 files
      let s1 := { s with audioFiles := res.1 }
      let stored := storeAudioData env.storeOk res.1 s1
      .ok (stored.1, res.2 ++ stored.2)
  else
    .ok (s, [Event.logMsg "Permission to access media library was denied."])

/-- `fetchAudioFiles(token)`: `setLoading(true)`, the `try` body, the
`catch` that logs, and the `finally` that always runs
`setLoading(false)`.  Total: no exception reaches the caller.  The
token only feeds the lookups, which the oracle fixes. -/
def fetchAudioFiles (env : Env) (token : String) (s : ProviderState) :
    ProviderState × List Event :=
  let s0 := { s with loading := true }
  match fetchAudioFilesBody env s0 with
  | .ok r => ({ r.1 with loading := false }, r.2)
  | .error _ => ({ s0 with loading := false }, [Event.logMsg "Error fetching audio files:"])

/-- JavaScript truthiness of the token `fetchSpotifyToken` returned:
`undefined` and the empty string are falsy. -/
def jsTokenTruthy : Option String → Bool
  | none => false
  | some s => !s.isEmpty

/-- The `initialize` closure of the mount effect: fetch a token (one
POST, always attempted; a failure is caught and logged inside
`fetchSpotifyToken`), load the cached snapshot, then either serve the
cache (offline with truthy cache), refresh (truthy token and online),
or do nothing.  Named `initializeProvider` here. -/
def initializeProvider (env : Env) (s : ProviderState) : ProviderState × List Event :=
  let tokenEvs : List Event :=
    Event.netTokenRequest ::
      (if env.tokenResult.isNone then [Event.logMsg "Error fetching Spotify token:"] else [])
  let loaded := loadAudioDataFromStorage env.loadOk s.store
  let evs0 := tokenEvs ++ loaded.2
  if loaded.1.isSome && !env.online then
    ({ s with audioFiles := loaded.1.getD [], loading := false },
      evs0 ++ [Event.logMsg "Loaded from cache:"])
  else if jsTokenTruthy env.tokenResult && env.online then
    let r := fetchAudioFiles env (env.tokenResult.getD "") s
    (r.1, evs0 ++ r.2)
  else (s, evs0)

/-! ### Concrete scenarios used by counterexamples and witnesses -/

/-- Run where the token request failed (simulated 401), the device is
online, media permission is granted and the device holds one audio
asset. -/
def envTokenFail : Env :=
  { tokenResult := none
    online := true
    permissionStatus := "granted"
    getAssetsFail := false
    assets := [{ id := "a1", filename := "song.mp3", uri := "u1" }]
    lookups := fun _ => LookupOutcome.failure
    storeOk := true
    loadOk := true }

/-- A previously persisted snapshot of three enriched tracks. -/
def cachedTracks : List AudioFile :=
  [{ id := "1", filename := "a.mp3", uri := "u1",
     albumCover := some "cov1", artist := some "art1", album := some "alb1" },
   { id := "2", filename := "b.mp3", uri := "u2" },
   { id := "3", filename := "c.mp3", uri := "u3", artist := some "art3" }]

/-- Run where the device is offline (the token request therefore fails)
and storage works. -/
def envOffline : Env :=
  { tokenResult := none
    online := false
    permissionStatus := "granted"
    getAssetsFail := false
    assets := []
    lookups := fun _ => LookupOutcome.failure
    storeOk := true
    loadOk := true }

/-- Run where the token request yielded no token, the device is online
and there is no cached snapshot. -/
def envNoToken : Env :=
  { tokenResult := none
    online := true
    permissionStatus := "granted"
    getAssetsFail := false
    assets := []
    lookups := fun _ => LookupOutcome.failure
    storeOk := true
    loadOk := true }

/-- A search response with `tracks`, `tracks.items` and the match's
`album` all PRESENT (album name "Alb", one artist), but with the
`album.images` field absent — so `track.album.images[0]` evaluates
`undefined[0]` and throws before the `?.` guard can apply. -/
def respNoImagesField : SearchResponse :=
  ⟨some ⟨some [{ album := some { images := none, name := "Alb" },
                 artists := some [{ name := "Artist" }] }]⟩⟩

/-- An unenriched track used as the input of that lookup. -/
def sampleTrack : AudioFile :=
  { id := "1", filename := "a.mp3", uri := "u" }

/-- Run where media permission is denied. -/
def envDenied : Env :=
  { tokenResult := some "tok"
    online := true
    permissionStatus := "denied"
    getAssetsFail := false
    assets := [{ id := "a1", filename := "song.mp3", uri := "u1" }]
    lookups := fun _ => LookupOutcome.failure
    storeOk := true
    loadOk := true }

/-! ## Helper lemmas -/

theorem jsSplit_headD (sep : Char) (l : List Char) :
    (jsSplit sep l).headD [] = l.takeWhile fun c => c != sep := by
  induction l with
  | nil => rfl
  | cons c cs ih =>
    by_cases h : (c == sep) = true <;>
      simp_all [jsSplit, List.takeWhile_cons, bne]

theorem enhanceOne_frame (f : AudioFile) (o : LookupOutcome) :
    (enhanceOne f o).id = f.id ∧ (enhanceOne f o).filename = f.filename ∧
      (enhanceOne f o).uri = f.uri := by
  cases o with
  | failure => exact ⟨rfl, rfl, rfl⟩
  | response d =>
    rcases d with ⟨tracks⟩
    cases tracks with
    | none => exact ⟨rfl, rfl, rfl⟩
    | some ts =>
      rcases ts with ⟨items⟩
      cases items with
      | none => exact ⟨rfl, rfl, rfl⟩
      | some l =>
        cases l with
        | nil => exact ⟨rfl, rfl, rfl⟩
        | cons tr rest =>
          rcases tr with ⟨album, artists⟩
          cases album with
          | none => exact ⟨rfl, rfl, rfl⟩
          | some al =>
            rcases al with ⟨images, nm⟩
            cases images with
            | none => exact ⟨rfl, rfl, rfl⟩
            | some imgs =>
              cases artists with
              | none => exact ⟨rfl, rfl, rfl⟩
              | some arts => exact ⟨rfl, rfl, rfl⟩

theorem enhanceRun_fst_length (lookups : LookupOracle) (n : Nat) (files : List AudioFile) :
    (enhanceRun lookups n files).1.length = files.length := by
  induction files generalizing n with
  | nil => rfl
  | cons f fs ih => simp [enhanceRun, ih]

theorem enhanceRun_fst_get? (lookups : LookupOracle) (files : List AudioFile)
    (n i : Nat) :
    (enhanceRun lookups n files).1.get? i =
      (files.get? i).map fun f => enhanceOne f (lookups (n + i)) := by
  induction files generalizing n i with
  | nil => simp [enhanceRun]
  | cons f fs ih =>
    cases i with
    | zero => simp [enhanceRun]
    | succ j =>
      simp only [enhanceRun, List.get?_cons_succ, ih fs.length]
      rw [ih (n + 1) j]
      have : n + 1 + j = n + (j + 1) := by omega
      rw [this]

theorem decodeTrack_encodeTrack (t : AudioFile) : decodeTrack (encodeTrack t) = some t := by
  rcases t with ⟨i, fn, u, ac, ar, al⟩
  cases ac <;> cases ar <;> cases al <;> rfl

theorem decodeTracks_encode (files : List AudioFile) :
    decodeTracks (files.map encodeTrack) = some files := by
  induction files with
  | nil => rfl
  | cons t ts ih => simp [decodeTracks, decodeTrack_encodeTrack, ih]

theorem decodeLibrary_encodeLibrary (files : List AudioFile) :
    decodeLibrary (encodeLibrary files) = some files := by
  simp [decodeLibrary, encodeLibrary, decodeTracks_encode]

/-! ## Claim theorems -/

/-- Claim C1, counterexample: with the token request failed (`none`),
the device online, media permission granted and one device audio asset,
initialization leaves the exposed library EMPTY — it does not contain an
unenriched `Track` entry for the asset, because the scan branch is
guarded by `if (token && navigator.onLine)` and is skipped without a
token. -/
theorem tokenFailure_scan_cex :
    envTokenFail.tokenResult = none ∧ envTokenFail.online = true ∧
    envTokenFail.permissionStatus = "granted" ∧
    envTokenFail.assets.map assetToFile =
      [{ id := "a1", filename := "song.mp3", uri := "u1" }] ∧
    (initializeProvider envTokenFail (initialState none)).1.audioFiles = [] ∧
    (initializeProvider envTokenFail (initialState none)).1.audioFiles ≠
      envTokenFail.assets.map assetToFile := by
  refine ⟨rfl, rfl, rfl, by decide, by decide, by decide⟩

/-- Claim C1, amended: if the token request fails or returns no token
while the device is online, the device-media scan step does NOT run:
initialization leaves the exposed library unchanged (so empty when it
started empty), the loading flag unchanged, and performs no catalog
search request — the only network request of the run is the token POST
itself.  No exception escapes (`initializeProvider` is total; every
`try/catch` of the source is modelled). -/
theorem tokenFailure_skips_scan (env : Env) (s : ProviderState)
    (htok : env.tokenResult = none) (hon : env.online = true) :
    (initializeProvider env s).1.audioFiles = s.audioFiles ∧
    (initializeProvider env s).1.loading = s.loading ∧
    (initializeProvider env s).2.filter isNetworkEvent = [Event.netTokenRequest] := by
  have hload : (loadAudioDataFromStorage env.loadOk s.store).2.filter isNetworkEvent = [] := by
    unfold loadAudioDataFromStorage
    cases env.loadOk <;> cases s.store <;> simp [isNetworkEvent]
  unfold initializeProvider
  simp [htok, hon, jsTokenTruthy, List.filter_append, hload, isNetworkEvent]

/-- Witness for the amended claim C1 at the concrete scenario
`envTokenFail`. -/
theorem tokenFailure_skips_scan_witness :
    envTokenFail.tokenResult = none ∧ envTokenFail.online = true ∧
    ((initializeProvider envTokenFail (initialState none)).1.audioFiles =
        (initialState none).audioFiles ∧
      (initializeProvider envTokenFail (initialState none)).1.loading =
        (initialState none).loading ∧
      (initializeProvider envTokenFail (initialState none)).2.filter isNetworkEvent =
        [Event.netTokenRequest]) :=
  ⟨rfl, rfl, tokenFailure_skips_scan envTokenFail (initialState none) rfl rfl⟩

/-- Claim C2, counterexample: offline with a cached 3-track snapshot,
the provider does expose exactly the cached tracks — but the run still
performs a network call, because `fetchSpotifyToken()` issues its POST
before the cache is even consulted.  This refutes "performs no network
calls during that run". -/
theorem offlineCache_network_cex :
    envOffline.online = false ∧
    (initializeProvider envOffline
        (initialState (some (encodeLibrary cachedTracks)))).1.audioFiles = cachedTracks ∧
    (initializeProvider envOffline
        (initialState (some (encodeLibrary cachedTracks)))).2.filter isNetworkEvent ≠ [] := by
  refine ⟨rfl, by decide, by decide⟩

/-- Claim C2, amended: for every initialization run in which the device
is offline and a cached snapshot exists, the provider exposes exactly
the cached tracks (and clears the loading flag), and performs no network
call beyond the single token request — in particular no catalog search
request. -/
theorem offlineCache_servesCache (env : Env) (files : List AudioFile) (s : ProviderState)
    (hoff : env.online = false) (hload : env.loadOk = true)
    (hstore : s.store = some (encodeLibrary files)) :
    (initializeProvider env s).1.audioFiles = files ∧
    (initializeProvider env s).1.loading = false ∧
    (initializeProvider env s).2.filter isNetworkEvent = [Event.netTokenRequest] := by
  unfold initializeProvider
  simp [hoff, hload, hstore, loadAudioDataFromStorage, decodeLibrary_encodeLibrary,
    List.filter_append, isNetworkEvent]

/-- Witness for the amended claim C2: offline run with a cached 3-track
snapshot. -/
theorem offlineCache_servesCache_witness :
    envOffline.online = false ∧ envOffline.loadOk = true ∧
    ((initializeProvider envOffline
          (initialState (some (encodeLibrary cachedTracks)))).1.audioFiles = cachedTracks ∧
      (initializeProvider envOffline
          (initialState (some (encodeLibrary cachedTracks)))).1.loading = false ∧
      (initializeProvider envOffline
          (initialState (some (encodeLibrary cachedTracks)))).2.filter isNetworkEvent =
        [Event.netTokenRequest]) :=
  ⟨rfl, rfl, offlineCache_servesCache envOffline cachedTracks
    (initialState (some (encodeLibrary cachedTracks))) rfl rfl rfl⟩

/-- Claim C3, counterexample: no token obtained, device online, no
cached snapshot — the run does terminate with the library empty, but the
loading flag is NOT cleared: no branch of `initialize` calls
`setLoading(false)` in this case, so it keeps its initial `true`. -/
theorem neitherBranch_loading_cex :
    envNoToken.tokenResult = none ∧ (initialState none).store = none ∧
    (initializeProvider envNoToken (initialState none)).1.audioFiles = [] ∧
    (initializeProvider envNoToken (initialState none)).1.loading = true ∧
    (initializeProvider envNoToken (initialState none)).1.loading ≠ false := by
  refine ⟨rfl, rfl, by decide, by decide, by decide⟩

/-- Claim C3, amended: for every initialization run in which neither the
cache branch (cached snapshot present and offline) nor the refresh
branch (truthy token and online) is taken, the run terminates with the
exposed library and the loading flag UNCHANGED — started from the mount
state this means the library is empty and the loading flag is still
`true`; it is not cleared. -/
theorem neitherBranch_unchanged (env : Env) (s : ProviderState)
    (hcache : ((loadAudioDataFromStorage env.loadOk s.store).1.isSome && !env.online) = false)
    (htok : (jsTokenTruthy env.tokenResult && env.online) = false) :
    (initializeProvider env s).1.audioFiles = s.audioFiles ∧
    (initializeProvider env s).1.loading = s.loading := by
  unfold initializeProvider
  simp [hcache, htok]

/-- Witness for the amended claim C3: no token, online, empty store,
starting from the mount state (empty library, loading `true`). -/
theorem neitherBranch_unchanged_witness :
    ((loadAudioDataFromStorage envNoToken.loadOk (initialState none).store).1.isSome &&
        !envNoToken.online) = false ∧
    (jsTokenTruthy envNoToken.tokenResult && envNoToken.online) = false ∧
    ((initializeProvider envNoToken (initialState none)).1.audioFiles =
        (initialState none).audioFiles ∧
      (initializeProvider envNoToken (initialState none)).1.loading =
        (initialState none).loading) :=
  ⟨by decide, by decide,
    neitherBranch_unchanged envNoToken (initialState none) (by decide) (by decide)⟩

/-- Claim C4: for every input list and every assignment of per-track
lookup outcomes (success, no match, or failure), the enrichment step
returns a list of the same length whose i-th element is the enrichment
of the i-th input track under its own lookup outcome (scan order
preserved, identifiers aligned); in particular no individual lookup
failure aborts the batch — the result is total and full-length for
every oracle. -/
theorem enhance_preserves_order (files : List AudioFile) (lookups : LookupOracle) :
    (enhanceAudioWithSpotifyData files lookups).length = files.length ∧
    (∀ i : Nat, (enhanceAudioWithSpotifyData files lookups).get? i =
      (files.get? i).map fun f => enhanceOne f (lookups i)) ∧
    (∀ i : Nat, ((enhanceAudioWithSpotifyData files lookups).get? i).map AudioFile.id =
      (files.get? i).map AudioFile.id) := by
  have hget : ∀ i : Nat, (enhanceAudioWithSpotifyData files lookups).get? i =
      (files.get? i).map fun f => enhanceOne f (lookups i) := by
    intro i
    simpa [enhanceAudioWithSpotifyData] using enhanceRun_fst_get? lookups files 0 i
  refine ⟨enhanceRun_fst_length lookups 0 files, hget, fun i => ?_⟩
  rw [hget i]
  cases h : files.get? i with
  | none => rfl
  | some f => simp [(enhanceOne_frame f (lookups i)).1]

/-- Claim C5: persisting a library with `storeAudioData` and loading it
back with `loadAudioDataFromStorage` yields the same library
field-for-field, when the underlying store succeeds (the `true` flags)
and nothing else wrote in between (the load reads exactly the store the
persist produced — the model's single orchestration task). -/
theorem store_load_roundtrip (files : List AudioFile) (s : ProviderState) :
    (loadAudioDataFromStorage true (storeAudioData true files s).1.store).1 = some files := by
  simp [storeAudioData, loadAudioDataFromStorage, decodeLibrary_encodeLibrary]

/-- Claim C6: if the media-library permission request is denied,
`fetchAudioFiles` terminates normally (it is a total function; the
`try/catch/finally` of the source catches everything), leaves the
exposed library as it was — empty when it started empty — logs the
denial notice, makes no network request, and clears the loading flag in
the `finally` block. -/
theorem fetchAudioFiles_denied (env : Env) (token : String) (s : ProviderState)
    (hperm : env.permissionStatus = "denied") (hempty : s.audioFiles = []) :
    (fetchAudioFiles env token s).1.audioFiles = [] ∧
    (fetchAudioFiles env token s).1.loading = false ∧
    (fetchAudioFiles env token s).2 =
      [Event.logMsg "Permission to access media library was denied."] ∧
    (fetchAudioFiles env token s).2.filter isNetworkEvent = [] := by
  unfold fetchAudioFiles fetchAudioFilesBody
  simp [hperm, hempty, isNetworkEvent]

/-- Witness for claim C6 at the concrete denied-permission scenario. -/
theorem fetchAudioFiles_denied_witness :
    envDenied.permissionStatus = "denied" ∧ (initialState none).audioFiles = [] ∧
    ((fetchAudioFiles envDenied "tok" (initialState none)).1.audioFiles = [] ∧
      (fetchAudioFiles envDenied "tok" (initialState none)).1.loading = false ∧
      (fetchAudioFiles envDenied "tok" (initialState none)).2 =
        [Event.logMsg "Permission to access media library was denied."] ∧
      (fetchAudioFiles envDenied "tok" (initialState none)).2.filter isNetworkEvent = []) :=
  ⟨rfl, rfl, fetchAudioFiles_denied envDenied "tok" (initialState none) rfl rfl⟩

/-- Claim C7, counterexample: for the filename "my.song.mp3" the query
string the code builds is "my" — `split('.')[0]` keeps only the part
before the FIRST dot — whereas stripping just the trailing extension
(the claim's wording) would give "my.song". -/
theorem searchQuery_stripExt_cex :
    searchQuery "my.song.mp3" = "my" ∧
    encodeURIComponent (stripExtension "my.song.mp3") = "my.song" ∧
    searchQuery "my.song.mp3" ≠ encodeURIComponent (stripExtension "my.song.mp3") := by
  refine ⟨by decide, by decide, by decide⟩

/-- Claim C7, amended: the search URL is the fixed endpoint with query
string equal to the portion of the track's filename BEFORE THE FIRST dot
(not just with the trailing extension removed), URL-escaped, and it
requests at most one match (`limit=1`). -/
theorem requestUrl_spec (file : AudioFile) :
    requestUrl file = "https://api.spotify.com/v1/search?q=" ++
      encodeURIComponent (beforeFirstDot file.filename) ++ "&type=track&limit=1" := by
  unfold requestUrl searchQuery beforeFirstDot
  rw [jsSplit_headD]

/-- Claim C8: when the lookup succeeds with at least one (well-formed)
match, the result is the input track with exactly the `albumCover`,
`artist` and `album` fields updated from the first match — cover URL of
the first album image, name of the first artist, album name — while
`id`, `filename` and `uri` are unchanged from the input. -/
theorem enhanceOne_success_updates (file : AudioFile) (imgs : List ImageObj)
    (arts : List ArtistObj) (albumName : String) (rest : List TrackObj) :
    enhanceOne file
        (.response ⟨some ⟨some (⟨some ⟨some imgs, albumName⟩, some arts⟩ :: rest)⟩⟩) =
      { file with albumCover := imgs.head?.map ImageObj.url,
                  artist := arts.head?.map ArtistObj.name,
                  album := some albumName } ∧
    (enhanceOne file
        (.response ⟨some ⟨some (⟨some ⟨some imgs, albumName⟩, some arts⟩ :: rest)⟩⟩)).id =
      file.id ∧
    (enhanceOne file
        (.response ⟨some ⟨some (⟨some ⟨some imgs, albumName⟩, some arts⟩ :: rest)⟩⟩)).filename =
      file.filename ∧
    (enhanceOne file
        (.response ⟨some ⟨some (⟨some ⟨some imgs, albumName⟩, some arts⟩ :: rest)⟩⟩)).uri =
      file.uri :=
  ⟨rfl, rfl, rfl, rfl⟩

/-- Claim C9: `useAudio` with no provider context throws an `Error`
whose message is exactly the documented one; with a provider value it
returns that value and never throws. -/
theorem useAudio_spec :
    useAudio none = Except.error "useAudio must be used within an AudioProvider" ∧
    ∀ c : AudioContextType, useAudio (some c) = Except.ok c :=
  ⟨rfl, fun _ => rfl⟩

/-- Claim C10, counterexample: `respNoImagesField` has `tracks`,
`tracks.items` and the match's `album` all present, yet enrichment
falls to the error branch — `track.album.images[0]` evaluates
`undefined[0]` and throws before the `?.` guard applies — so the track
comes back unchanged and the present album name "Alb" is NOT copied.
This refutes "only a response missing tracks.items or album entirely
falls to the error branch". -/
theorem guardedIndexing_cex :
    respNoImagesField.tracks ≠ none ∧
    (respNoImagesField.tracks.getD ⟨none⟩).items ≠ none ∧
    (((respNoImagesField.tracks.getD ⟨none⟩).items.getD []).headD ⟨none, none⟩).album ≠ none ∧
    enhanceOne sampleTrack (.response respNoImagesField) = sampleTrack ∧
    (enhanceOne sampleTrack (.response respNoImagesField)).album ≠ some "Alb" := by
  refine ⟨by decide, by decide, by decide, by decide, by decide⟩

/-- Claim C10, amended: a match with an EMPTY `album.images` or
`artists` array does not throw — the optional-chained index leaves
`albumCover` (resp. `artist`) unset while the other matched fields are
still copied.  The error branch, which returns the input track
unchanged, is reached by a response missing `tracks` or `tracks.items`,
by a match missing `album` — and also by a match whose `album.images`
or `artists` FIELD is absent entirely, since `[0]` is evaluated on
`undefined` before the `?.` guard applies. -/
theorem enhanceOne_indexing_guards (file : AudioFile) (albumName : String)
    (rest : List TrackObj) (a : ArtistObj) (im : ImageObj) (imgs : List ImageObj) :
    (enhanceOne file (.response ⟨some ⟨some (⟨some ⟨some [], albumName⟩, some []⟩ :: rest)⟩⟩) =
      { file with albumCover := none, artist := none, album := some albumName }) ∧
    (enhanceOne file (.response ⟨some ⟨some (⟨some ⟨some [], albumName⟩, some [a]⟩ :: rest)⟩⟩) =
      { file with albumCover := none, artist := some a.name, album := some albumName }) ∧
    (enhanceOne file (.response ⟨some ⟨some (⟨some ⟨some [im], albumName⟩, some []⟩ :: rest)⟩⟩) =
      { file with albumCover := some im.url, artist := none, album := some albumName }) ∧
    (enhanceOne file (.response ⟨none⟩) = file) ∧
    (enhanceOne file (.response ⟨some ⟨none⟩⟩) = file) ∧
    (∀ artists : Option (List ArtistObj),
      enhanceOne file (.response ⟨some ⟨some (⟨none, artists⟩ :: rest)⟩⟩) = file) ∧
    (∀ artists : Option (List ArtistObj),
      enhanceOne file (.response ⟨some ⟨some (⟨some ⟨none, albumName⟩, artists⟩ :: rest)⟩⟩) =
        file) ∧
    (enhanceOne file (.response ⟨some ⟨some (⟨some ⟨some imgs, albumName⟩, none⟩ :: rest)⟩⟩) =
      file) :=
  ⟨rfl, rfl, rfl, rfl, rfl, fun _ => rfl, fun _ => rfl, rfl⟩

end MusicPlayer
